import Mathlib

/-!
Verification of the set-variable block executor
(`packages/bot-engine/blocks/logic/setVariable/executeSetVariable.ts`).

The embedding models the module's three functions — `executeSetVariable`,
`evaluateSetVariableExpression` and `getExpressionToEvaluate` — together with
the JavaScript value/truthiness semantics the emitted scripts rely on.
External collaborators (`parseVariables`, the `vm` sandbox, `date-fns-tz`,
`createId`, `parseScriptToExecuteClientSideAction`) are passed in as explicit
function-valued parameters of an environment record, and the two ambient
effects consulted by the synthesizer (the wall clock and the fresh-id
generator) are a separate effect record, so that every definition is a total
computable function of its inputs.
-/

/-- JavaScript values, as far as the evaluated scripts need them:
`undefined`, `null`, booleans, (integer) numbers, strings and arrays. -/
inductive JsVal where
  | undef : JsVal
  | nullv : JsVal
  | bool : Bool → JsVal
  | num : Int → JsVal
  | str : String → JsVal
  | arr : List JsVal → JsVal

/-- JavaScript truthiness: `undefined`, `null`, `false`, `0` and `""` are
falsy; everything else (arrays included) is truthy. -/
def truthy : JsVal → Bool
  | .undef => false
  | .nullv => false
  | .bool b => b
  | .num n => n != 0
  | .str s => s != ""
  | .arr _ => true

/-- `Array.isArray`. -/
def isArrB : JsVal → Bool
  | .arr _ => true
  | _ => false

/-- How `Array.prototype.concat` treats its argument: an array argument is
spread into its elements, any other value contributes itself. -/
def spreadElems : JsVal → List JsVal
  | .arr l => l
  | v => [v]

/-- A session variable: `{ id, name, value }` from `@typebot.io/schemas`. -/
structure Variable where
  id : String
  name : String
  value : Option JsVal

/-- The part of the typebot record the executor reads: its variable pool
(field `variables` in the source; `vars` here because `variables` is a
reserved word in Lean). -/
structure TypebotRec where
  vars : List Variable

/-- One entry of `state.typebotsQueue`: the typebot and its result id. -/
structure TypebotInQueue where
  typebot : TypebotRec
  resultId : Option String

/-- The WhatsApp contact carried by a messaging-channel session. -/
structure WhatsAppContact where
  name : Option String
  phoneNumber : Option String

/-- The WhatsApp part of the session state. -/
structure WhatsAppState where
  contact : WhatsAppContact

/-- The slice of `SessionState` the executor reads: the typebots queue and
the optional WhatsApp (messaging-channel) marker. -/
structure SessionState where
  typebotsQueue : List TypebotInQueue
  whatsApp : Option WhatsAppState

/-- `state.typebotsQueue[0].typebot.variables` (empty pool if the queue is
empty). -/
def poolOf (state : SessionState) : List Variable :=
  match state.typebotsQueue with
  | [] => []
  | q :: _ => q.typebot.vars

/-- `state.typebotsQueue[0].resultId`. -/
def resultIdOf (state : SessionState) : Option String :=
  match state.typebotsQueue with
  | [] => none
  | q :: _ => q.resultId

/-- The `type` discriminant of a set-variable block's options, one
constructor per string of the schema's union. -/
inductive SetVarType where
  | contactName | phoneNumber | now | today | tomorrow | yesterday
  | randomId | resultId | userId | mapItemWithSameIndex | appendValues
  | empty | momentOfTheDay | environmentName | custom
deriving Repr, BEq, DecidableEq

/-- Parameters of the `Map item with same index` variant. -/
structure MapListItemParams where
  baseListVariableId : Option String
  baseItemVariableId : Option String
  targetListVariableId : Option String
deriving Repr, BEq, DecidableEq

/-- `SetVariableBlock["options"]`: every field is optional in the schema. -/
structure SetVariableOptions where
  variableId : Option String := none
  type : Option SetVarType := none
  expressionToEvaluate : Option String := none
  isExecutedOnClient : Option Bool := none
  timeZone : Option String := none
  item : Option String := none
  mapListItemParams : Option MapListItemParams := none
deriving Repr, BEq, DecidableEq

/-- A set-variable block: outgoing edge plus options. -/
structure SetVariableBlock where
  outgoingEdgeId : Option String := none
  options : Option SetVariableOptions := none
deriving Repr, BEq, DecidableEq

/-- One client-side action of the client route: the `setVariable`
instruction built around `parseScriptToExecuteClientSideAction`'s output. -/
structure ClientSideAction where
  kind : String
  scriptToExecute : String
  expectsDedicatedReply : Bool
deriving Repr, BEq, DecidableEq

/-- `ExecuteLogicResponse`: the edge to follow, optional client-side
actions, and the optional updated session state. -/
structure ExecuteLogicResponse where
  outgoingEdgeId : Option String := none
  clientSideActions : Option (List ClientSideAction) := none
  newSessionState : Option SessionState := none

/-- The external collaborators the module imports, as explicit functions:
template substitution in both of its modes, the `vm` sandbox run (errors as
`Except.error`), the `date-fns-tz` pair used by `toISOWithTz`, and the
client-script builder. All are deterministic libraries, so they are fixed
parameters rather than effects. -/
structure Env where
  parseVariables : List Variable → String → String
  parseVariablesId : List Variable → String → String
  runSandbox : List Variable → String → Except String JsVal
  utcToZonedTime : Int → String → Int
  tzFormat : Int → String → String
  buildClientScript : List Variable → String → String

/-- The ambient effects the synthesizer consults in one invocation: the
current clock reading (`Date.now()` / `new Date()`, in ms) and the fresh id
`createId()` would produce. -/
structure Eff where
  now : Int
  freshId : String
deriving Repr, BEq, DecidableEq

/-- Whitespace trimming on character lists (the trimming JavaScript's
string-to-number coercion performs). -/
def trimChars (l : List Char) : List Char :=
  ((l.dropWhile (·.isWhitespace)).reverse.dropWhile (·.isWhitespace)).reverse

/-- JavaScript string-to-number coercion succeeds (i.e. `isNaN(str)` is
false): after trimming, the text is empty, a signed decimal literal with
optional fraction and exponent, a signed `Infinity`, or a hex/octal/binary
prefixed literal. -/
def jsStrNumeric (s : String) : Bool :=
  let t := trimChars s.toList
  let digits : List Char → Bool := fun l => !l.isEmpty && l.all (·.isDigit)
  let hexDigits : List Char → Bool := fun l => !l.isEmpty && l.all (fun c =>
    c.isDigit || ('a' ≤ c && c ≤ 'f') || ('A' ≤ c && c ≤ 'F'))
  let octDigits : List Char → Bool := fun l => !l.isEmpty && l.all (fun c =>
    '0' ≤ c && c ≤ '7')
  let binDigits : List Char → Bool := fun l => !l.isEmpty && l.all (fun c =>
    c == '0' || c == '1')
  let unsignedDec : List Char → Bool := fun l =>
    let pair : List Char × Option (List Char) :=
      match l.splitOn 'e', l.splitOn 'E' with
      | [m, e], _ => (m, some e)
      | _, [m, e] => (m, some e)
      | _, _ => (l, none)
    let expOk := match pair.2 with
      | none => true
      | some e =>
        match e with
        | '+' :: e1 => digits e1
        | '-' :: e1 => digits e1
        | e1 => digits e1
    let mantOk := match pair.1.splitOn '.' with
      | [intPart] => digits intPart
      | [intPart, fracPart] =>
        (digits intPart && (fracPart.isEmpty || digits fracPart)) ||
          (intPart.isEmpty && digits fracPart)
      | _ => false
    mantOk && expOk
  let unsigned : List Char → Bool := fun l =>
    unsignedDec l || l == "Infinity".toList ||
      (match l with
       | '0' :: 'x' :: rest => hexDigits rest
       | '0' :: 'X' :: rest => hexDigits rest
       | '0' :: 'o' :: rest => octDigits rest
       | '0' :: 'O' :: rest => octDigits rest
       | '0' :: 'b' :: rest => binDigits rest
       | '0' :: 'B' :: rest => binDigits rest
       | _ => false)
  match t with
  | [] => true
  | '+' :: rest => unsignedDec rest || rest == "Infinity".toList
  | '-' :: rest => unsignedDec rest || rest == "Infinity".toList
  | l => unsigned l

/-- The regex `/0[^.].+/` holds of a character list: somewhere in it a `0`
is followed by a non-dot character and then at least one more character. -/
def zeroPattern : List Char → Bool
  | [] => false
  | c :: rest =>
    ((c == '0') && (match rest with
      | c2 :: _ :: _ => c2 != '.'
      | _ => false)) || zeroPattern rest

/-- The guard on line 68 of the source: a non-NaN numeric text matching
`/0[^.].+/` is returned as-is, to avoid octal evaluation. -/
def numericZeroGuard (s : String) : Bool :=
  jsStrNumeric s && zeroPattern s.toList

/-- Fuel-bounded count of non-overlapping occurrences of a needle, scanning
left to right and skipping past each match, as `String.prototype.split`
does; the fuel is the haystack length, which bounds the scan. -/
def countOccAux (needle : List Char) : List Char → Nat → Nat
  | _, 0 => 0
  | [], _ + 1 => 0
  | c :: rest, fuel + 1 =>
    if needle.isPrefixOf (c :: rest) then
      1 + countOccAux needle ((c :: rest).drop needle.length) fuel
    else countOccAux needle rest fuel

/-- Number of non-overlapping occurrences of `needle` in `l`. -/
def countOcc (needle l : List Char) : Nat :=
  countOccAux needle l l.length

/-- The single-variable fast path test: the text starts with the opening
placeholder delimiter, ends with the closing one, and splitting on the
opening delimiter yields exactly two parts (i.e. the delimiter occurs
exactly once). -/
def isSingleVariableStr (s : String) : Bool :=
  "\x7b\x7b".toList.isPrefixOf s.toList &&
    "\x7d\x7d".toList.isSuffixOf s.toList &&
    (countOcc "\x7b\x7b".toList s.toList + 1) == 2

/-- Substring occurrence test on character lists: the needle occurs
contiguously somewhere in the haystack (`String.prototype.includes`). -/
def containsSeq (needle : List Char) : List Char → Bool
  | [] => needle.isEmpty
  | c :: rest => needle.isPrefixOf (c :: rest) || containsSeq needle rest

/-- The wrapping applied before sandbox execution:
`(function() { <body> })()` where the body gets a `return` prepended unless
the text already contains `return `. -/
def wrapScript (s : String) : String :=
  "(function() \x7b" ++
    (if containsSeq "return ".toList s.toList then s else "return " ++ s) ++
    "\x7d)()"

/-- `evaluateSetVariableExpression` (source lines 62–84): single-variable
fast path, octal guard, then sandboxed execution of the wrapped and
id-substituted script, falling back to plain template substitution when the
sandbox throws. -/
def evaluateSetVariableExpression (env : Env) (pool : List Variable)
    (s : String) : JsVal :=
  if isSingleVariableStr s then .str (env.parseVariables pool s)
  else if numericZeroGuard s then .str s
  else
    let evaluating := env.parseVariablesId pool (wrapScript s)
    match env.runSandbox pool evaluating with
    | .ok v => v
    | .error _ => .str (env.parseVariables pool s)

/-- Interpolation of an optional string into a template literal: JavaScript
renders `undefined` as the text `undefined`. -/
def optStr (o : Option String) : String :=
  o.getD "undefined"

/-- `toISOWithTz` (source lines 159–162): shift the instant into the zone
with `utcToZonedTime`, then format it with an explicit numeric offset. -/
def toISOWithTz (env : Env) (date : Int) (timeZone : String) : String :=
  env.tzFormat (env.utcToZonedTime date timeZone) timeZone

/-- Template substitution of the optional `timeZone` option against the
pool (`parseVariables` applied to a possibly-undefined text yields `""`). -/
def resolveTz (env : Env) (state : SessionState) (tz : Option String) : String :=
  match tz with
  | none => ""
  | some t => env.parseVariables (poolOf state) t

/-- The script text emitted for `Moment of the day` (source lines 142–148),
verbatim from the template literal. -/
def momentScriptText : String :=
  "const now = new Date()\n        if(now.getHours() < 12) return \x27morning\x27\n        if(now.getHours() >= 12 && now.getHours() < 18) return \x27afternoon\x27\n        if(now.getHours() >= 18) return \x27evening\x27\n        if(now.getHours() >= 22 || now.getHours() < 6) return \x27night\x27"

/-- The script text emitted for `Append value(s)` (source lines 133–138),
with the `item` and `variableId` option texts interpolated verbatim. -/
def appendScriptText (item variableId : Option String) : String :=
  "if(!" ++ optStr item ++ ") return " ++ optStr variableId ++ ";\n        if(!" ++
    optStr variableId ++ ") return [" ++ optStr item ++ "];\n        if(!Array.isArray(" ++
    optStr variableId ++ ")) return [" ++ optStr variableId ++ ", " ++ optStr item ++
    "];\n        return (" ++ optStr variableId ++ ").concat(" ++ optStr item ++ ");"

/-- The script text emitted for `Map item with same index` (source lines
128–131). -/
def mapItemScriptText (p : Option MapListItemParams) : String :=
  "const itemIndex = " ++ optStr (p.bind (·.baseListVariableId)) ++ ".indexOf(" ++
    optStr (p.bind (·.baseItemVariableId)) ++ ")\n      return " ++
    optStr (p.bind (·.targetListVariableId)) ++ ".at(itemIndex)"

/-- `getExpressionToEvaluate` (source lines 86–157): one arm per descriptor
type, returning the expression text to evaluate or `none`. The wall clock
and the fresh id are read from `eff`. -/
def getExpressionToEvaluate (env : Env) (eff : Eff) (state : SessionState)
    (options : Option SetVariableOptions) : Option String :=
  match options with
  | none => none
  | some opts =>
    match opts.type with
    | some .contactName => state.whatsApp.bind (·.contact.name)
    | some .phoneNumber =>
      match state.whatsApp.bind (·.contact.phoneNumber) with
      | some p => if p = "" then none else some ("\"" ++ p ++ "\"")
      | none => none
    | some .now =>
      let timeZone := resolveTz env state opts.timeZone
      if timeZone = "" then some "new Date().toISOString()"
      else some (toISOWithTz env eff.now timeZone)
    | some .today => some "new Date().toISOString()"
    | some .tomorrow =>
      let timeZone := resolveTz env state opts.timeZone
      if timeZone = "" then some "new Date(Date.now() + 86400000).toISOString()"
      else some (toISOWithTz env (eff.now + 86400000) timeZone)
    | some .yesterday =>
      let timeZone := resolveTz env state opts.timeZone
      if timeZone = "" then some "new Date(Date.now() - 86400000).toISOString()"
      else some (toISOWithTz env (eff.now - 86400000) timeZone)
    | some .randomId => some ("\"" ++ eff.freshId ++ "\"")
    | some .resultId | some .userId =>
      match resultIdOf state with
      | some r => some r
      | none => some ("\"" ++ eff.freshId ++ "\"")
    | some .mapItemWithSameIndex => some (mapItemScriptText opts.mapListItemParams)
    | some .appendValues => some (appendScriptText opts.item opts.variableId)
    | some .empty => none
    | some .momentOfTheDay => some momentScriptText
    | some .environmentName =>
      some (if state.whatsApp.isSome then "whatsapp" else "web")
    | some .custom | none => opts.expressionToEvaluate

/-- JavaScript truthiness of the optional expression text (`null`,
`undefined` and `""` are falsy). -/
def strTruthy : Option String → Bool
  | none => false
  | some s => s != ""

/-- The client-route condition of source lines 23–28: a truthy expression,
no WhatsApp session, and either a custom/unspecified type with the
`isExecutedOnClient` flag or the `Moment of the day` type. -/
def clientRoute (state : SessionState) (opts : SetVariableOptions)
    (expr : Option String) : Bool :=
  strTruthy expr && state.whatsApp.isNone &&
    (((decide (opts.type = none) || decide (opts.type = some SetVarType.custom)) &&
        decide (opts.isExecutedOnClient = some true)) ||
      decide (opts.type = some SetVarType.momentOfTheDay))

/-- Modelled from the spec: `updateVariablesInSession` (imported from
`@typebot.io/variables`, not part of the shown source) — §4.5 Variable
Commit: each variable of the pool whose id matches an entry of the new
variables list is replaced by that entry; all other variables and their
order are preserved, producing a new session snapshot. -/
def updateVariablesInSession (state : SessionState)
    (newVariables : List Variable) : SessionState :=
  match state.typebotsQueue with
  | [] => state
  | q :: rest =>
    { state with typebotsQueue :=
        { q with typebot :=
            { vars := q.typebot.vars.map (fun v =>
                match newVariables.find? (fun nv => nv.id == v.id) with
                | some nv => nv
                | none => v) } } :: rest }

/-- `executeSetVariable` (source lines 12–60): early return when the
target variable id is falsy, client route when `clientRoute` holds,
otherwise server-side evaluation and commit of the target variable (pass
through when the target id is not in the pool). -/
def executeSetVariable (env : Env) (eff : Eff) (state : SessionState)
    (block : SetVariableBlock) : ExecuteLogicResponse :=
  let pool := poolOf state
  match block.options with
  | none => { outgoingEdgeId := block.outgoingEdgeId }
  | some opts =>
    if opts.variableId = none ∨ opts.variableId = some "" then
      { outgoingEdgeId := block.outgoingEdgeId }
    else
      let expressionToEvaluate := getExpressionToEvaluate env eff state (some opts)
      if clientRoute state opts expressionToEvaluate then
        { outgoingEdgeId := block.outgoingEdgeId,
          clientSideActions := some
            [⟨"setVariable",
              env.buildClientScript pool (expressionToEvaluate.getD ""),
              true⟩] }
      else
        let evaluatedExpression : Option JsVal :=
          if strTruthy expressionToEvaluate then
            some (evaluateSetVariableExpression env pool
              (expressionToEvaluate.getD ""))
          else none
        match pool.find? (fun v => v.id == opts.variableId.getD "") with
        | none => { outgoingEdgeId := block.outgoingEdgeId }
        | some existingVariable =>
          { outgoingEdgeId := block.outgoingEdgeId,
            newSessionState := some (updateVariablesInSession state
              [{ existingVariable with value := evaluatedExpression }]) }

/-- Abstract syntax of the expression fragment appearing in the emitted
scripts: literals, the scripts' free variables (de Bruijn-style indices into
an environment), logical negation, `Array.isArray`, one- and two-element
array literals, `concat`, numeric comparisons, and the value-returning
`&&` / `||` operators. -/
inductive JsExpr where
  | lit (v : JsVal)
  | var (i : Nat)
  | not (e : JsExpr)
  | isArray (e : JsExpr)
  | arr1 (e : JsExpr)
  | arr2 (a b : JsExpr)
  | concat (a b : JsExpr)
  | lt (a b : JsExpr)
  | ge (a b : JsExpr)
  | and (a b : JsExpr)
  | or (a b : JsExpr)

/-- Evaluation of `JsExpr` under an environment of variable values,
following JavaScript semantics (`!`, `Array.isArray`, array literals,
`concat` with one-level spreading of array arguments, numeric comparison
returning `false` on non-numbers, and short-circuit `&&` / `||` returning
one of their operands). -/
def evalE (env : List JsVal) : JsExpr → JsVal
  | .lit v => v
  | .var i => env.getD i .undef
  | .not e => .bool (!truthy (evalE env e))
  | .isArray e => .bool (isArrB (evalE env e))
  | .arr1 e => .arr [evalE env e]
  | .arr2 a b => .arr [evalE env a, evalE env b]
  | .concat a b =>
    match evalE env a with
    | .arr l => .arr (l ++ spreadElems (evalE env b))
    | _ => .undef
  | .lt a b =>
    match evalE env a, evalE env b with
    | .num x, .num y => .bool (x < y)
    | _, _ => .bool false
  | .ge a b =>
    match evalE env a, evalE env b with
    | .num x, .num y => .bool (x ≥ y)
    | _, _ => .bool false
  | .and a b =>
    let va := evalE env a
    if truthy va then evalE env b else va
  | .or a b =>
    let va := evalE env a
    if truthy va then va else evalE env b

/-- A statement of the emitted scripts: a guarded `if(c) return r` or an
unconditional `return r`. -/
inductive GStmt where
  | retIf (c r : JsExpr)
  | ret (r : JsExpr)

/-- Running a script: statements execute in order, the first satisfied
guard (or unconditional return) produces the result; falling off the end
yields `undefined`. -/
def runG (env : List JsVal) : List GStmt → JsVal
  | [] => .undef
  | .ret r :: _ => evalE env r
  | .retIf c r :: rest =>
    if truthy (evalE env c) then evalE env r else runG env rest

/-- Shallow embedding of the `Moment of the day` script text
(`momentScriptText`, source lines 142–148): variable 0 is the client clock's
`now.getHours()` reading. -/
def momentScript : List GStmt :=
  [.retIf (.lt (.var 0) (.lit (.num 12))) (.lit (.str "morning")),
   .retIf (.and (.ge (.var 0) (.lit (.num 12))) (.lt (.var 0) (.lit (.num 18))))
     (.lit (.str "afternoon")),
   .retIf (.ge (.var 0) (.lit (.num 18))) (.lit (.str "evening")),
   .retIf (.or (.ge (.var 0) (.lit (.num 22))) (.lt (.var 0) (.lit (.num 6))))
     (.lit (.str "night"))]

/-- Shallow embedding of the `Append value(s)` script text
(`appendScriptText`, source lines 133–138): variable 0 is the target
variable's current value, variable 1 the item expression's value. -/
def appendScript : List GStmt :=
  [.retIf (.not (.var 1)) (.var 0),
   .retIf (.not (.var 0)) (.arr1 (.var 1)),
   .retIf (.not (.isArray (.var 0))) (.arr2 (.var 0) (.var 1)),
   .ret (.concat (.var 0) (.var 1))]

/-- A concrete environment for closed evaluations: template substitution is
the identity, the sandbox always throws, the time-zone formatter returns a
fixed marker, and the client-script builder passes the expression through. -/
def idEnv : Env :=
  { parseVariables := fun _ s => s,
    parseVariablesId := fun _ s => s,
    runSandbox := fun _ _ => .error "err",
    utcToZonedTime := fun d _ => d,
    tzFormat := fun _ _ => "ZONED",
    buildClientScript := fun _ s => s }

/-- Whether one invocation of the synthesizer on these options consults an
ambient effect: `Random ID` always draws a fresh id, `Result ID` / `User ID`
draw one when no result id is queued, and `Now` / `Tomorrow` / `Yesterday`
read the clock when a non-empty time zone resolves. -/
def effectDependent (env : Env) (state : SessionState)
    (opts : SetVariableOptions) : Bool :=
  match opts.type with
  | some .randomId => true
  | some .resultId => (resultIdOf state).isNone
  | some .userId => (resultIdOf state).isNone
  | some .now => !(resolveTz env state opts.timeZone == "")
  | some .tomorrow => !(resolveTz env state opts.timeZone == "")
  | some .yesterday => !(resolveTz env state opts.timeZone == "")
  | _ => false

/-- A fixture variable for concrete runs. -/
def varV1 : Variable := ⟨"v1", "Name", some (.str "hello")⟩

/-- A web (non-messaging) session whose pool holds only `varV1`. -/
def stateV1 : SessionState := ⟨[⟨⟨[varV1]⟩, none⟩], none⟩

/-- A web (non-messaging) session with an empty pool. -/
def stateWeb : SessionState := ⟨[⟨⟨[]⟩, none⟩], none⟩

/-- Evaluation lemma: truthiness of a boolean value is the boolean. -/
theorem truthy_bool (b : Bool) : truthy (.bool b) = b := rfl

/-- Evaluation lemma: arrays are always truthy. -/
theorem truthy_arr (l : List JsVal) : truthy (.arr l) = true := rfl

/-- Evaluation lemma: `Array.isArray` holds of arrays. -/
theorem isArrB_arr (l : List JsVal) : isArrB (.arr l) = true := rfl

/-- C5: for every variable pool (and any sandbox/substitution environment),
evaluating the expression text "0123" returns the string "0123" unevaluated
— not a number — because the non-NaN numeric text matches the leading-zero
guard and is returned as-is without script execution. -/
theorem c5_octal_guard (env : Env) (pool : List Variable) :
    evaluateSetVariableExpression env pool "0123" = .str "0123" := by
  rfl

/-- C10: the octal guard is not anchored at the start of the text: "1023"
has no leading zero (its first character is '1'), is non-NaN numeric, yet
matches the guard pattern `/0[^.].+/` at its inner zero, so the evaluator
returns it unevaluated as a string for every pool and environment. -/
theorem c10_guard_matches_inner_zero (env : Env) (pool : List Variable) :
    "1023".toList.head? = some '1'
    ∧ jsStrNumeric "1023" = true
    ∧ zeroPattern "1023".toList = true
    ∧ evaluateSetVariableExpression env pool "1023" = .str "1023" :=
  ⟨rfl, rfl, rfl, rfl⟩

/-- C8: for every clock hour in 22..23 the `Moment of the day` script
resolves to "evening" and never to "night": the evening guard
(`hour >= 18`) precedes the night guard and the first satisfied guard
wins. -/
theorem c8_moment_evening (n : Int) (h1 : 22 ≤ n) (h2 : n ≤ 23) :
    runG [.num n] momentScript = .str "evening"
    ∧ runG [.num n] momentScript ≠ .str "night" := by
  have hn : n = 22 ∨ n = 23 := by omega
  rcases hn with rfl | rfl <;> exact ⟨rfl, by simp [runG, momentScript, evalE, truthy]⟩

/-- Witness for C8 at hour 23. -/
theorem c8_moment_evening_witness :
    runG [.num 23] momentScript = .str "evening" :=
  (c8_moment_evening 23 (by omega) (by omega)).1

/-- C7: the `Append value(s)` script evaluates by four ordered branches:
falsy item ⇒ the target unchanged; falsy target ⇒ the one-element list of
the item; non-array target ⇒ the two-element list of target and item;
array target ⇒ the target with the item appended; in particular target
`["a"]` with item `"b"` yields `["a","b"]`, and non-list target `"a"` with
item `"b"` yields `["a","b"]`. -/
theorem c7_append_branches (t i : JsVal) :
    (truthy i = false → runG [t, i] appendScript = t)
    ∧ (truthy i = true → truthy t = false →
        runG [t, i] appendScript = .arr [i])
    ∧ (truthy i = true → truthy t = true → isArrB t = false →
        runG [t, i] appendScript = .arr [t, i])
    ∧ (∀ l, truthy i = true → isArrB i = false →
        runG [.arr l, i] appendScript = .arr (l ++ [i]))
    ∧ runG [.arr [.str "a"], .str "b"] appendScript = .arr [.str "a", .str "b"]
    ∧ runG [.str "a", .str "b"] appendScript = .arr [.str "a", .str "b"] := by
  refine ⟨?_, ?_, ?_, ?_, rfl, rfl⟩
  · intro hi
    simp [appendScript, runG, evalE, hi, truthy_bool]
  · intro hi ht
    simp [appendScript, runG, evalE, hi, ht, truthy_bool]
  · intro hi ht ha
    simp [appendScript, runG, evalE, hi, ht, ha, truthy_bool]
  · intro l hi hia
    have hspread : spreadElems i = [i] := by
      cases i <;> simp_all [spreadElems, isArrB]
    simp [appendScript, runG, evalE, hi, truthy_bool, truthy_arr, isArrB_arr,
      hspread]

/-- Witness for C7: the non-falsy branches at concrete values. -/
theorem c7_append_branches_witness :
    truthy (.str "b") = true ∧ isArrB (.str "a") = false ∧
    runG [.str "a", .str "b"] appendScript = .arr [.str "a", .str "b"] :=
  ⟨rfl, rfl, (c7_append_branches (.str "a") (.str "b")).2.2.1 rfl rfl rfl⟩

/-- C4: whenever the text does not hit the octal guard (the only case in
which the wrapped expression is never handed to the sandbox) and the
sandbox run of the wrapped, id-substituted expression throws,
`evaluateSetVariableExpression` returns the plain template substitution of
the original text; the error is never propagated (the function is total). -/
theorem c4_error_fallback (env : Env) (pool : List Variable) (s m : String)
    (hguard : numericZeroGuard s = false)
    (hrun : env.runSandbox pool (env.parseVariablesId pool (wrapScript s))
      = .error m) :
    evaluateSetVariableExpression env pool s
      = .str (env.parseVariables pool s) := by
  unfold evaluateSetVariableExpression
  cases hf : isSingleVariableStr s <;> simp [hf, hguard, hrun]

/-- Witness for C4: an always-throwing sandbox on the text "a + b" falls
back to the (identity) template substitution. -/
theorem c4_error_fallback_witness :
    numericZeroGuard "a + b" = false
    ∧ evaluateSetVariableExpression idEnv [] "a + b" = .str "a + b" :=
  ⟨rfl, c4_error_fallback idEnv [] "a + b" "err" rfl rfl⟩

/-- C3 counterexample: with the time-zone option resolving to the non-empty
zone "Europe/Paris", the `Today` arm still synthesizes the UTC expression
`new Date().toISOString()` (the text the claim allows only for an empty
zone), while the `Now` arm on the same options synthesizes the zoned
formatter's output — so `Today` does not behave like `Now`. -/
theorem c3_counterexample :
    resolveTz idEnv stateWeb (some "Europe/Paris") = "Europe/Paris"
    ∧ (("Europe/Paris" : String) == "") = false
    ∧ getExpressionToEvaluate idEnv ⟨0, "id"⟩ stateWeb
        (some { variableId := some "v1", type := some .today,
                timeZone := some "Europe/Paris" })
      = some "new Date().toISOString()"
    ∧ getExpressionToEvaluate idEnv ⟨0, "id"⟩ stateWeb
        (some { variableId := some "v1", type := some .now,
                timeZone := some "Europe/Paris" })
      = some "ZONED" :=
  ⟨rfl, rfl, rfl, rfl⟩

/-- C3 amended: the `Today` arm synthesizes the UTC ISO expression
`new Date().toISOString()` unconditionally, ignoring the time-zone option;
only `Now`, `Tomorrow` and `Yesterday` honour a resolved zone. -/
theorem c3_today_always_utc (env : Env) (eff : Eff) (state : SessionState)
    (opts : SetVariableOptions) (h : opts.type = some .today) :
    getExpressionToEvaluate env eff state (some opts)
      = some "new Date().toISOString()" := by
  simp [getExpressionToEvaluate, h]

/-- Witness for C3's amended theorem at a concrete zoned `Today` block. -/
theorem c3_today_always_utc_witness :
    getExpressionToEvaluate idEnv ⟨0, "id"⟩ stateWeb
      (some { variableId := some "v1", type := some .today,
              timeZone := some "Europe/Paris" })
    = some "new Date().toISOString()" :=
  c3_today_always_utc idEnv ⟨0, "id"⟩ stateWeb _ rfl

/-- C2 counterexample: on an `Empty` block (synthesized expression `null`)
whose target variable "v1" is in the pool with value "hello", the executor
does return an updated session state, and in it the target's value has been
cleared — not a no-op as claimed. -/
theorem c2_counterexample :
    getExpressionToEvaluate idEnv ⟨0, "id"⟩ stateV1
        (some { variableId := some "v1", type := some .empty }) = none
    ∧ varV1.value.isSome = true
    ∧ (executeSetVariable idEnv ⟨0, "id"⟩ stateV1
        ⟨some "e1", some { variableId := some "v1", type := some .empty }⟩).newSessionState.isSome
      = true
    ∧ executeSetVariable idEnv ⟨0, "id"⟩ stateV1
        ⟨some "e1", some { variableId := some "v1", type := some .empty }⟩
      = ⟨some "e1", none,
          some ⟨[⟨⟨[⟨"v1", "Name", none⟩]⟩, none⟩], none⟩⟩ :=
  ⟨rfl, rfl, rfl, rfl⟩

/-- C2 amended: when the target variable id is truthy, the synthesized
expression is `null` and the target variable is in the pool, the executor
commits the target with a cleared (undefined) value and returns the updated
session state; every other pool variable is carried over unchanged. -/
theorem c2_null_expr_clears (env : Env) (eff : Eff) (state : SessionState)
    (block : SetVariableBlock) (opts : SetVariableOptions) (vid : String)
    (v : Variable)
    (hopts : block.options = some opts)
    (hvid : opts.variableId = some vid) (hne : vid ≠ "")
    (hexpr : getExpressionToEvaluate env eff state (some opts) = none)
    (hfind : (poolOf state).find? (fun w => w.id == vid) = some v) :
    executeSetVariable env eff state block
      = { outgoingEdgeId := block.outgoingEdgeId,
          newSessionState := some (updateVariablesInSession state
            [{ v with value := none }]) }
    ∧ ∀ w ∈ poolOf state, w.id ≠ vid →
        w ∈ poolOf (updateVariablesInSession state [{ v with value := none }]) := by
  have hvidv : v.id = vid := by
    have hp := List.find?_some hfind
    simpa using hp
  constructor
  · have hcr : clientRoute state opts none = false := by
      simp [clientRoute, strTruthy]
    simp [executeSetVariable, hopts, hvid, hne, hexpr, hcr, strTruthy, hfind]
  · intro w hw hwne
    unfold updateVariablesInSession
    unfold poolOf at hw ⊢
    cases hq : state.typebotsQueue with
    | nil => rw [hq] at hw; cases hw
    | cons q rest =>
      rw [hq] at hw
      refine List.mem_map.mpr ⟨w, hw, ?_⟩
      have hne3 : (v.id == w.id) = false := by
        simp [hvidv]
        exact fun h => (hwne h.symm).elim
      simp [List.find?, hne3]

/-- Witness for C2's amended theorem: the concrete `Empty` run clears
"v1". -/
theorem c2_null_expr_clears_witness :
    executeSetVariable idEnv ⟨0, "id"⟩ stateV1
      ⟨some "e1", some { variableId := some "v1", type := some .empty }⟩
    = ⟨some "e1", none,
        some ⟨[⟨⟨[⟨"v1", "Name", none⟩]⟩, none⟩], none⟩⟩ :=
  (c2_null_expr_clears idEnv ⟨0, "id"⟩ stateV1
    ⟨some "e1", some { variableId := some "v1", type := some .empty }⟩
    { variableId := some "v1", type := some .empty } "v1" varV1
    rfl rfl (by decide) rfl rfl).1

/-- C6 counterexample: a `Moment of the day` block on a web session whose
target id "ghost" is not in the pool is still routed to the client path, so
the response is not "only the outgoing edge id": it carries client-side
actions. -/
theorem c6_counterexample :
    List.find? (fun w => w.id == "ghost") (poolOf stateV1) = none
    ∧ (executeSetVariable idEnv ⟨0, "id"⟩ stateV1
        ⟨some "e1", some { variableId := some "ghost",
                           type := some .momentOfTheDay }⟩).clientSideActions
      = some [⟨"setVariable", momentScriptText, true⟩] :=
  ⟨rfl, rfl⟩

/-- C6 amended: whenever the block carries a truthy target id that is not
in the pool and the block is not routed to the client path, the executor
returns only the outgoing edge id — no client-side actions, no new session
state (the pool is untouched), never a fatal error. -/
theorem c6_missing_variable (env : Env) (eff : Eff) (state : SessionState)
    (block : SetVariableBlock) (opts : SetVariableOptions) (vid : String)
    (hopts : block.options = some opts)
    (hvid : opts.variableId = some vid) (hne : vid ≠ "")
    (hcr : clientRoute state opts
      (getExpressionToEvaluate env eff state (some opts)) = false)
    (hfind : (poolOf state).find? (fun w => w.id == vid) = none) :
    executeSetVariable env eff state block
      = { outgoingEdgeId := block.outgoingEdgeId } := by
  simp [executeSetVariable, hopts, hvid, hne, hcr, hfind]

/-- Witness for C6's amended theorem: a `Custom` block (no client flag)
targeting the absent id "ghost" passes through. -/
theorem c6_missing_variable_witness :
    executeSetVariable idEnv ⟨0, "id"⟩ stateV1
      ⟨some "e1", some { variableId := some "ghost", type := some .custom,
                         expressionToEvaluate := some "1 + 1" }⟩
    = ⟨some "e1", none, none⟩ :=
  c6_missing_variable idEnv ⟨0, "id"⟩ stateV1
    ⟨some "e1", some { variableId := some "ghost", type := some .custom,
                       expressionToEvaluate := some "1 + 1" }⟩
    { variableId := some "ghost", type := some .custom,
      expressionToEvaluate := some "1 + 1" } "ghost"
    rfl rfl (by decide) rfl rfl

/-- C1 counterexample: two concrete refutations of the stated iff. First, a
`Moment of the day` block with no target variable id on a web session: the
synthesized expression is non-null (truthy), the session is not WhatsApp
and the descriptor is MomentOfDay, yet the executor early-returns with no
client-side actions. Second, a flagged `Custom` block whose expression text
is the empty string: the synthesized expression is non-null (`some ""`),
yet the executor takes the server path. -/
theorem c1_counterexample :
    strTruthy (getExpressionToEvaluate idEnv ⟨0, "id"⟩ stateWeb
        (some { type := some .momentOfTheDay })) = true
    ∧ stateWeb.whatsApp = none
    ∧ executeSetVariable idEnv ⟨0, "id"⟩ stateWeb
        ⟨some "e1", some { type := some .momentOfTheDay }⟩
      = ⟨some "e1", none, none⟩
    ∧ getExpressionToEvaluate idEnv ⟨0, "id"⟩ stateV1
        (some { variableId := some "v1", type := some .custom,
                isExecutedOnClient := some true,
                expressionToEvaluate := some "" })
      = some ""
    ∧ (executeSetVariable idEnv ⟨0, "id"⟩ stateV1
        ⟨some "e1", some { variableId := some "v1", type := some .custom,
                           isExecutedOnClient := some true,
                           expressionToEvaluate := some "" }⟩).clientSideActions
      = none :=
  ⟨rfl, rfl, rfl, rfl, rfl⟩

/-- C1 amended: for blocks carrying a truthy target variable id, the
executor routes to the client path iff the synthesized expression is truthy
(non-null and non-empty), the session is not a WhatsApp session, and either
the type is custom/unspecified with the `isExecutedOnClient` flag set or the
type is `Moment of the day`; on the client path the response is exactly the
`setVariable` instruction with `expectsDedicatedReply` and no new session
state. -/
theorem c1_routing (env : Env) (eff : Eff) (state : SessionState)
    (block : SetVariableBlock) (opts : SetVariableOptions) (vid : String)
    (hopts : block.options = some opts)
    (hvid : opts.variableId = some vid) (hne : vid ≠ "") :
    ((executeSetVariable env eff state block).clientSideActions.isSome = true
      ↔ (strTruthy (getExpressionToEvaluate env eff state (some opts)) = true
         ∧ state.whatsApp = none
         ∧ (((opts.type = none ∨ opts.type = some .custom)
              ∧ opts.isExecutedOnClient = some true)
            ∨ opts.type = some .momentOfTheDay)))
    ∧ (clientRoute state opts
        (getExpressionToEvaluate env eff state (some opts)) = true →
      executeSetVariable env eff state block
        = { outgoingEdgeId := block.outgoingEdgeId,
            clientSideActions := some [⟨"setVariable",
              env.buildClientScript (poolOf state)
                ((getExpressionToEvaluate env eff state (some opts)).getD ""),
              true⟩],
            newSessionState := none }) := by
  have hcond : clientRoute state opts
      (getExpressionToEvaluate env eff state (some opts)) = true
      ↔ (strTruthy (getExpressionToEvaluate env eff state (some opts)) = true
         ∧ state.whatsApp = none
         ∧ (((opts.type = none ∨ opts.type = some .custom)
              ∧ opts.isExecutedOnClient = some true)
            ∨ opts.type = some .momentOfTheDay)) := by
    simp [clientRoute, Option.isNone_iff_eq_none]
    tauto
  have hmain : (executeSetVariable env eff state block).clientSideActions.isSome
      = clientRoute state opts (getExpressionToEvaluate env eff state (some opts)) := by
    cases hcr : clientRoute state opts
        (getExpressionToEvaluate env eff state (some opts)) with
    | true => simp [executeSetVariable, hopts, hvid, hne, hcr]
    | false =>
      simp [executeSetVariable, hopts, hvid, hne, hcr]
      cases hf : (poolOf state).find? (fun v => v.id == vid) <;> simp [hf]
  refine ⟨?_, ?_⟩
  · rw [hmain]; exact hcond
  · intro hcr
    simp [executeSetVariable, hopts, hvid, hne, hcr]

/-- Witness for C1's amended theorem: a concrete `Moment of the day` block
with target id "v1" on a web session routes to the client. -/
theorem c1_routing_witness :
    executeSetVariable idEnv ⟨0, "id"⟩ stateV1
      ⟨some "e1", some { variableId := some "v1", type := some .momentOfTheDay }⟩
    = ⟨some "e1", some [⟨"setVariable", momentScriptText, true⟩], none⟩ :=
  (c1_routing idEnv ⟨0, "id"⟩ stateV1
    ⟨some "e1", some { variableId := some "v1", type := some .momentOfTheDay }⟩
    { variableId := some "v1", type := some .momentOfTheDay } "v1"
    rfl rfl (by decide)).2 rfl

/-- C9 counterexample: two invocations of the synthesizer on the same
`Random ID` descriptor and the same context, differing only in the ambient
fresh id, produce different expressions — the mapping is not a function of
descriptor and context alone. -/
theorem c9_counterexample :
    getExpressionToEvaluate idEnv ⟨0, "idA"⟩ stateV1
        (some { variableId := some "v1", type := some .randomId })
      = some "\"idA\""
    ∧ getExpressionToEvaluate idEnv ⟨0, "idB"⟩ stateV1
        (some { variableId := some "v1", type := some .randomId })
      = some "\"idB\""
    ∧ ((some "\"idA\"" : Option String) == some "\"idB\"") = false :=
  ⟨rfl, rfl, rfl⟩

/-- C9 amended: the synthesizer is deterministic given descriptor and
context for every variant that does not consult an ambient effect; only
`Random ID`, `Result ID` / `User ID` with no queued result id, and the
time-based variants with a non-empty resolved zone additionally depend on
the fresh id or the clock. -/
theorem c9_determinism (env : Env) (state : SessionState)
    (opts : SetVariableOptions) (e1 e2 : Eff)
    (h : effectDependent env state opts = false) :
    getExpressionToEvaluate env e1 state (some opts)
      = getExpressionToEvaluate env e2 state (some opts) := by
  cases hty : opts.type with
  | none => simp [getExpressionToEvaluate, hty]
  | some ty =>
    cases ty with
    | now =>
      have htz : resolveTz env state opts.timeZone = "" := by
        simpa [effectDependent, hty] using h
      simp [getExpressionToEvaluate, hty, htz]
    | tomorrow =>
      have htz : resolveTz env state opts.timeZone = "" := by
        simpa [effectDependent, hty] using h
      simp [getExpressionToEvaluate, hty, htz]
    | yesterday =>
      have htz : resolveTz env state opts.timeZone = "" := by
        simpa [effectDependent, hty] using h
      simp [getExpressionToEvaluate, hty, htz]
    | randomId => simp [effectDependent, hty] at h
    | resultId =>
      have hres : ¬ resultIdOf state = none := by
        have hs := h
        simp [effectDependent, hty] at hs
        simp [Option.isSome_iff_exists] at hs
        rcases hs with ⟨r, hr⟩
        simp [hr]
      cases hr : resultIdOf state with
      | none => exact absurd hr hres
      | some r => simp [getExpressionToEvaluate, hty, hr]
    | userId =>
      have hres : ¬ resultIdOf state = none := by
        have hs := h
        simp [effectDependent, hty] at hs
        simp [Option.isSome_iff_exists] at hs
        rcases hs with ⟨r, hr⟩
        simp [hr]
      cases hr : resultIdOf state with
      | none => exact absurd hr hres
      | some r => simp [getExpressionToEvaluate, hty, hr]
    | contactName => simp [getExpressionToEvaluate, hty]
    | phoneNumber => simp [getExpressionToEvaluate, hty]
    | today => simp [getExpressionToEvaluate, hty]
    | mapItemWithSameIndex => simp [getExpressionToEvaluate, hty]
    | appendValues => simp [getExpressionToEvaluate, hty]
    | empty => simp [getExpressionToEvaluate, hty]
    | momentOfTheDay => simp [getExpressionToEvaluate, hty]
    | environmentName => simp [getExpressionToEvaluate, hty]
    | custom => simp [getExpressionToEvaluate, hty]

/-- Witness for C9's amended theorem: a `Moment of the day` descriptor is
effect-free and two invocations with different clocks and ids agree. -/
theorem c9_determinism_witness :
    effectDependent idEnv stateV1
      { variableId := some "v1", type := some .momentOfTheDay } = false
    ∧ getExpressionToEvaluate idEnv ⟨0, "a"⟩ stateV1
        (some { variableId := some "v1", type := some .momentOfTheDay })
      = getExpressionToEvaluate idEnv ⟨5, "b"⟩ stateV1
        (some { variableId := some "v1", type := some .momentOfTheDay }) :=
  ⟨rfl, c9_determinism idEnv stateV1
    { variableId := some "v1", type := some .momentOfTheDay }
    ⟨0, "a"⟩ ⟨5, "b"⟩ rfl⟩
